import Mathlib

/-!
Shallow embedding of `backend/llm/base.py` (class `BaseBrainPicking`) and
proofs of the behavioural properties of its configuration resolution,
chat-history formatting and base-class error paths.
-/

namespace Quivr

/-- Modelled from the spec: the list `streaming_compatible_models` lives in
`utils/constants.py`, which is not part of the provided sources. The spec
fixes two membership facts used by its scenarios: "gpt-3.5-turbo" is a member
of the streaming-capable set and "text-davinci-003" is not. -/
def streaming_compatible_models : List String :=
  ["gpt-3.5-turbo"]

/-- The environment-derived settings singleton (`models.settings.BrainSettings`),
of which only the `openai_api_key` field is read by `base.py`. -/
structure BrainSettings where
  openai_api_key : String
deriving DecidableEq, Repr

/-- A chat-history record as read from the database: `format_chat_history`
projects out `user_message` and `assistant` and drops everything else
(e.g. the timestamp). -/
structure ChatHistoryEntry where
  user_message : String
  assistant : String
  timestamp : Nat
deriving DecidableEq, Repr

/-- The callback-handler values of `langchain.callbacks` that `base.py`
mentions; `_determine_callback_array` puts `AsyncIteratorCallbackHandler`
into the callback list. -/
inductive AsyncCallbackHandler where
  | AsyncIteratorCallbackHandler
deriving DecidableEq, Repr

/-- Opaque composed chain object passed to `_acall_chain`. -/
inductive ConversationalRetrievalChain where
  | mk
deriving DecidableEq, Repr

/-- Python exceptions raised by the base-class bodies. -/
inductive PyError where
  | NotImplementedError (msg : String)
deriving DecidableEq, Repr

/-- `BaseBrainPicking._determine_api_key`:
if `user_openai_api_key is not None` return it, else return `openai_api_key`. -/
def _determine_api_key (openai_api_key : String)
    (user_openai_api_key : Option String) : String :=
  match user_openai_api_key with
  | some k => k
  | none => openai_api_key

/-- `BaseBrainPicking._determine_streaming`:
`if model_name in streaming_compatible_models and streaming: return True else: return False`. -/
def _determine_streaming (model_name : String) (streaming : Bool) : Bool :=
  if model_name ∈ streaming_compatible_models ∧ streaming = true then
    true
  else
    false

/-- `BaseBrainPicking._determine_callback_array`:
`if streaming: return [AsyncIteratorCallbackHandler]`; the implicit Python
fall-through returns `None`, modelled as `none`. -/
def _determine_callback_array (streaming : Bool) :
    Option (List AsyncCallbackHandler) :=
  if streaming then
    some [AsyncCallbackHandler.AsyncIteratorCallbackHandler]
  else
    none

/-- The keyword data accepted by `BaseBrainPicking.__init__(**data)`, with the
class-attribute defaults of `base.py` lines 26-32. Temperature is a Python
float used only as stored data, embedded as a rational. -/
structure InitData where
  model_name : String := "gpt-3.5-turbo"
  temperature : ℚ := 0
  chat_id : Option String := none
  brain_id : Option String := none
  max_tokens : Int := 256
  streaming : Bool := false
  user_openai_api_key : Option String := none
deriving DecidableEq, Repr

/-- The state of a `BaseBrainPicking` instance after `__init__`: the pydantic
fields plus the two attributes `__init__` assigns (`openai_api_key` and
`callbacks`). -/
structure BaseBrainPicking where
  brain_settings : BrainSettings
  model_name : String
  temperature : ℚ
  chat_id : Option String
  brain_id : Option String
  max_tokens : Int
  streaming : Bool
  user_openai_api_key : Option String
  openai_api_key : String
  callbacks : Option (List AsyncCallbackHandler)
deriving DecidableEq, Repr

/-- `BaseBrainPicking.__init__`: `super().__init__(**data)` populates the
declared fields from `data` (defaults applied by `InitData`), then the three
assignments of lines 60-64 run in order: the effective API key from the
settings default and the user key, the effective streaming flag from the
model name and the requested flag, and the callback array from the effective
streaming flag. -/
def BaseBrainPicking.mk_init (settings : BrainSettings) (data : InitData) :
    BaseBrainPicking :=
  { brain_settings := settings
    model_name := data.model_name
    temperature := data.temperature
    chat_id := data.chat_id
    brain_id := data.brain_id
    max_tokens := data.max_tokens
    streaming := _determine_streaming data.model_name data.streaming
    user_openai_api_key := data.user_openai_api_key
    openai_api_key :=
      _determine_api_key settings.openai_api_key data.user_openai_api_key
    callbacks :=
      _determine_callback_array
        (_determine_streaming data.model_name data.streaming) }

/-- `format_chat_history`: `[(chat.user_message, chat.assistant) for chat in history]`. -/
def format_chat_history (history : List ChatHistoryEntry) :
    List (String × String) :=
  history.map (fun chat => (chat.user_message, chat.assistant))

/-- `_acall_chain` on the base class: the body unconditionally raises
`NotImplementedError("Async generation not implemented for this BrainPicking Class.")`. -/
def _acall_chain (chain : ConversationalRetrievalChain) (question : String)
    (history : List ChatHistoryEntry) : Except PyError String :=
  Except.error (PyError.NotImplementedError
    "Async generation not implemented for this BrainPicking Class.")

/-- `generate_stream` on the base class: the body unconditionally raises
`NotImplementedError("Async generation not implemented for this BrainPicking Class.")`;
the async iterable it would produce is embedded as a list of tokens. -/
def generate_stream (question : String) : Except PyError (List String) :=
  Except.error (PyError.NotImplementedError
    "Async generation not implemented for this BrainPicking Class.")

/-- The operations `base.py` implements on a constructed instance (the
remaining methods are abstract and have no body to embed). -/
inductive Operation where
  | determineApiKey (openai_api_key : String) (user_key : Option String)
  | determineStreaming (model_name : String) (streaming : Bool)
  | determineCallbackArray (streaming : Bool)
  | formatChatHistory (history : List ChatHistoryEntry)
  | acallChain (chain : ConversationalRetrievalChain) (question : String)
      (history : List ChatHistoryEntry)
  | generateStream (question : String)
deriving DecidableEq, Repr

/-- Result of running one operation. -/
inductive OpResult where
  | key (k : String)
  | flag (b : Bool)
  | callbackArray (c : Option (List AsyncCallbackHandler))
  | formatted (l : List (String × String))
  | answer (r : Except PyError String)
  | stream (r : Except PyError (List String))
deriving Repr

/-- Stateful view of the implemented methods: each is run against the
instance state and returns its result together with the instance state after
the call. No method body of `base.py` assigns to `self` outside `__init__`,
which the translation makes explicit by threading the state. -/
def runOp (self : BaseBrainPicking) (op : Operation) :
    OpResult × BaseBrainPicking :=
  match op with
  | Operation.determineApiKey d u => (OpResult.key (_determine_api_key d u), self)
  | Operation.determineStreaming m s =>
      (OpResult.flag (_determine_streaming m s), self)
  | Operation.determineCallbackArray s =>
      (OpResult.callbackArray (_determine_callback_array s), self)
  | Operation.formatChatHistory h =>
      (OpResult.formatted (format_chat_history h), self)
  | Operation.acallChain c q h => (OpResult.answer (_acall_chain c q h), self)
  | Operation.generateStream q => (OpResult.stream (generate_stream q), self)

/-- Claim C1: immediately after construction, the instance's effective
streaming flag holds iff streaming was requested and the model name belongs
to the streaming-capable model set, and the instance's effective API key is
the user-supplied key when one is present, otherwise the environment-derived
default key. -/
theorem init_resolves_key_and_streaming (settings : BrainSettings)
    (data : InitData) :
    ((BaseBrainPicking.mk_init settings data).streaming = true ↔
      (data.streaming = true ∧
        data.model_name ∈ streaming_compatible_models)) ∧
    (BaseBrainPicking.mk_init settings data).openai_api_key =
      data.user_openai_api_key.getD settings.openai_api_key := by
  constructor
  · show _determine_streaming data.model_name data.streaming = true ↔ _
    unfold _determine_streaming
    cases data.streaming <;>
      by_cases hm : data.model_name ∈ streaming_compatible_models <;>
        simp [hm]
  · show _determine_api_key settings.openai_api_key data.user_openai_api_key = _
    cases data.user_openai_api_key <;> rfl

/-- Claim C1 witness: constructing with model "gpt-3.5-turbo", requested
streaming and a user key yields effective streaming true and the user key. -/
theorem init_resolves_key_and_streaming_witness :
    (BaseBrainPicking.mk_init ⟨"env-key"⟩
      { streaming := true, user_openai_api_key := some "user-key" }).streaming
        = true ∧
    (BaseBrainPicking.mk_init ⟨"env-key"⟩
      { streaming := true,
        user_openai_api_key := some "user-key" }).openai_api_key
        = "user-key" := by
  have h := init_resolves_key_and_streaming ⟨"env-key"⟩
    { streaming := true, user_openai_api_key := some "user-key" }
  exact ⟨h.1.mpr ⟨rfl, by decide⟩, h.2⟩

/-- Claim C2: the API-key resolver returns the user key exactly when one is
present (non-null) and the default key otherwise; it is a total function with
no error case. -/
theorem determine_api_key_spec (openai_api_key : String)
    (user_openai_api_key : Option String) :
    _determine_api_key openai_api_key user_openai_api_key =
      user_openai_api_key.getD openai_api_key ∧
    ((∃ k, user_openai_api_key = some k ∧
        _determine_api_key openai_api_key user_openai_api_key = k) ↔
      user_openai_api_key ≠ none) := by
  cases user_openai_api_key with
  | none => exact ⟨rfl, by simp⟩
  | some k => exact ⟨rfl, by simp [_determine_api_key]⟩

/-- Claim C2 witness: with a user key present, that key is returned; with
none, the default is returned. -/
theorem determine_api_key_spec_witness :
    _determine_api_key "default-key" (some "user-key") = "user-key" ∧
    _determine_api_key "default-key" none = "default-key" :=
  ⟨(determine_api_key_spec "default-key" (some "user-key")).1,
   (determine_api_key_spec "default-key" none).1⟩

/-- Claim C3: the streaming resolver returns true exactly when streaming is
requested and the model name belongs to the fixed streaming-capable set; in
particular it returns false whenever the requested flag is false. -/
theorem determine_streaming_spec (model_name : String) (streaming : Bool) :
    (_determine_streaming model_name streaming = true ↔
      (streaming = true ∧ model_name ∈ streaming_compatible_models)) ∧
    _determine_streaming model_name false = false := by
  constructor
  · unfold _determine_streaming
    cases streaming <;>
      by_cases hm : model_name ∈ streaming_compatible_models <;> simp [hm]
  · unfold _determine_streaming
    simp

/-- Claim C3 witness: at a member model with requested = true the resolver
returns true, and with requested = false it returns false. -/
theorem determine_streaming_spec_witness :
    _determine_streaming "gpt-3.5-turbo" true = true ∧
    _determine_streaming "gpt-3.5-turbo" false = false :=
  ⟨(determine_streaming_spec "gpt-3.5-turbo" true).1.mpr ⟨rfl, by decide⟩,
   (determine_streaming_spec "gpt-3.5-turbo" true).2⟩

/-- Claim C4: the callback resolver returns the singleton list holding the
token-stream callback handler when streaming is enabled, and the absent value
(Python `None`) when it is not. -/
theorem determine_callback_array_spec :
    _determine_callback_array true =
      some [AsyncCallbackHandler.AsyncIteratorCallbackHandler] ∧
    _determine_callback_array false = none :=
  ⟨rfl, rfl⟩

/-- Claim C5: on the base class, for every chain, question and history, the
asynchronous chain-call operation and the streaming entry point both fail
with the not-supported error instead of producing an answer. -/
theorem base_async_not_supported (chain : ConversationalRetrievalChain)
    (question : String) (history : List ChatHistoryEntry) :
    _acall_chain chain question history =
      Except.error (PyError.NotImplementedError
        "Async generation not implemented for this BrainPicking Class.") ∧
    generate_stream question =
      Except.error (PyError.NotImplementedError
        "Async generation not implemented for this BrainPicking Class.") :=
  ⟨rfl, rfl⟩

/-- Claim C6: no implemented operation mutates the instance: running any
operation on a constructed instance leaves every field, configuration
included, exactly as it was after `__init__`. -/
theorem operations_preserve_state (self : BaseBrainPicking)
    (op : Operation) : (runOp self op).2 = self := by
  cases op <;> rfl

/-- Claim C7 counterexample: construction performs no range validation, so a
configuration built with temperature 3 is accepted and its temperature lies
outside [0, 2]. -/
theorem config_bounds_counterexample :
    (BaseBrainPicking.mk_init ⟨"env-key"⟩ { temperature := 3 }).temperature
        = 3 ∧
    ¬ ((BaseBrainPicking.mk_init ⟨"env-key"⟩
        { temperature := 3 }).temperature ≤ 2) := by
  constructor
  · rfl
  · show ¬ ((3 : ℚ) ≤ 2)
    norm_num

/-- Claim C7 (amended): the default-constructed configuration satisfies
temperature ∈ [0, 2] and maxTokens > 0, but construction stores whatever
temperature and maxTokens it is given without enforcing those bounds. -/
theorem config_bounds_default (settings : BrainSettings) (data : InitData) :
    (0 ≤ (BaseBrainPicking.mk_init settings {}).temperature ∧
      (BaseBrainPicking.mk_init settings {}).temperature ≤ 2 ∧
      0 < (BaseBrainPicking.mk_init settings {}).max_tokens) ∧
    (BaseBrainPicking.mk_init settings data).temperature =
      data.temperature ∧
    (BaseBrainPicking.mk_init settings data).max_tokens =
      data.max_tokens := by
  refine ⟨⟨?_, ?_, ?_⟩, rfl, rfl⟩ <;> norm_num [BaseBrainPicking.mk_init]

/-- Claim C8: the API-key resolver and the streaming resolver are
deterministic and pure: their outputs do not depend on the instance state,
so two calls with identical inputs agree, and neither call changes the
state. -/
theorem resolvers_pure (s1 s2 : BaseBrainPicking) (d : String)
    (u : Option String) (m : String) (b : Bool) :
    (runOp s1 (Operation.determineApiKey d u)).1 =
      (runOp s2 (Operation.determineApiKey d u)).1 ∧
    (runOp s1 (Operation.determineApiKey d u)).2 = s1 ∧
    (runOp s1 (Operation.determineStreaming m b)).1 =
      (runOp s2 (Operation.determineStreaming m b)).1 ∧
    (runOp s1 (Operation.determineStreaming m b)).2 = s1 :=
  ⟨rfl, rfl, rfl, rfl⟩

/-- Claim C9: `format_chat_history` preserves length and order, its i-th
element is the pair (user_message, assistant) of the i-th history entry, and
timestamps are dropped. -/
theorem format_chat_history_spec (history : List ChatHistoryEntry)
    (i : Nat) :
    (format_chat_history history).length = history.length ∧
    (format_chat_history history)[i]? =
      (history[i]?).map (fun chat => (chat.user_message, chat.assistant)) := by
  constructor
  · simp [format_chat_history]
  · simp [format_chat_history]

/-- Claim C10: the API-key resolver tests only for null, not emptiness: a
user-supplied empty string is returned as the effective key, not the
default. -/
theorem empty_user_key_wins (openai_api_key : String) :
    _determine_api_key openai_api_key (some "") = "" :=
  rfl

end Quivr
